import Mathlib

/-!
# Login / registration page script

A shallow embedding of `src/static/js/login-registration.js`: the pet-field
manager (`addPetFields`, `disableAddPet`, `enableAddPet` and the two listeners)
as functions on a page state, and `submitForm` as a function from the page state
and the behaviour of the network to the ordered list of effects it performs
(alerts, requests, console output, cookie writes, navigation).

Conventions.
* Strings are Lean strings, that is well-formed Unicode text; `.value` of an input
  is whatever text the input holds.
* `petCounter` is a natural number: the script only ever increments it from 0, and a
  JavaScript number counts exactly up to 2^53, beyond any number of clicks.
* A request that `fetch` rejects (network failure) is still recorded as issued.
* A promise that rejects with no handler attached is recorded as
  `Effect.unhandledRejection`.
-/

set_option autoImplicit false

namespace LoginRegistration

/-! ## Host built-ins used by the script -/

/-- JavaScript errors that the script can meet. -/
inductive JSError where
  /-- property access on `null` / `undefined`, or a value that cannot be converted -/
  | typeError
  /-- `Response.json()` on a body that is not JSON -/
  | syntaxError
  /-- `fetch` rejected: the request got no response -/
  | networkError
deriving DecidableEq, Repr

/-- Values that `Response.json()` can deliver, plus `undefined` (the result of
reading an absent property). A number is carried by the text that
`Number.prototype.toString` gives for it (`"0"` for both zeros); an object by its
members in source order. -/
inductive JSValue where
  | undefined
  | null
  | bool (b : Bool)
  | num (text : String)
  | str (s : String)
  | arr (items : List JSValue)
  | obj (members : List (String × JSValue))

/-- Truthiness (`ToBoolean`). -/
def JSValue.truthy : JSValue → Bool
  | .undefined => false
  | .null => false
  | .bool b => b
  | .num text => text != "0"
  | .str s => s != ""
  | .arr _ => true
  | .obj _ => true

/-- Property read `v.key` for a non-index key: throws on `null` and `undefined`,
finds an own member of an object (the last one of that name wins, as in
`JSON.parse`), and is `undefined` everywhere else. -/
def JSValue.getProp (v : JSValue) (key : String) : Except JSError JSValue :=
  match v with
  | .undefined => .error .typeError
  | .null => .error .typeError
  | .obj members =>
    match members.reverse.find? (fun m => m.1 == key) with
    | some m => .ok m.2
    | none => .ok .undefined
  | _ => .ok .undefined

mutual
/-- String conversion (`ToString`) as done by a template literal. An object with
an own member `toString` has no callable conversion left and throws. -/
def JSValue.toStr : JSValue → Option String
  | .undefined => some "undefined"
  | .null => some "null"
  | .bool b => some (if b then "true" else "false")
  | .num text => some text
  | .str s => some s
  | .arr items => JSValue.join items
  | .obj members =>
    if members.any (fun m => m.1 == "toString") then none else some "[object Object]"
/-- The joining of array items with `,` (`Array.prototype.join`): `null` and
`undefined` items render as the empty string. -/
def JSValue.join : List JSValue → Option String
  | [] => some ""
  | [x] =>
    match x with
    | .undefined => some ""
    | .null => some ""
    | v => v.toStr
  | x :: y :: rest =>
    match (match x with
      | .undefined => some ""
      | .null => some ""
      | v => v.toStr), JSValue.join (y :: rest) with
    | some a, some b => some (a ++ "," ++ b)
    | _, _ => none
end

/-- Test `s.includes(c)` for a one-character needle. -/
def includes (s : String) (c : Char) : Bool := s.toList.contains c

/-- Characters that `encodeURIComponent` leaves as they are. -/
def uriUnreserved (c : Char) : Bool :=
  c.isAlphanum || "-_.!~*()".toList.contains c || c.toNat == 39

/-- One hexadecimal digit, upper case. -/
def hexDigit (n : Nat) : Char := "0123456789ABCDEF".toList.getD n '0'

/-- The UTF-8 bytes of a code point. -/
def utf8Bytes (n : Nat) : List Nat :=
  if n < 0x80 then [n]
  else if n < 0x800 then [0xC0 + n / 64, 0x80 + n % 64]
  else if n < 0x10000 then [0xE0 + n / 4096, 0x80 + n / 64 % 64, 0x80 + n % 64]
  else [0xF0 + n / 262144, 0x80 + n / 4096 % 64, 0x80 + n / 64 % 64, 0x80 + n % 64]

/-- Percent-encoding of one character. -/
def encodeChar (c : Char) : List Char :=
  if uriUnreserved c then [c]
  else (utf8Bytes c.toNat).flatMap (fun b => ['%', hexDigit (b / 16), hexDigit (b % 16)])

/-- The built-in `encodeURIComponent`. -/
def encodeURIComponent (s : String) : String :=
  String.mk (s.toList.flatMap encodeChar)

/-- Sign class of a JavaScript number: all that `isNaN(x)` and `x <= 0` observe. -/
inductive NumClass where
  | nan
  | negative
  | zero
  | positive
deriving DecidableEq, Repr

/-- White space and line terminators stripped by the string-to-number conversion. -/
def isStrWhiteSpace (c : Char) : Bool :=
  [9, 10, 11, 12, 13, 32, 160, 0x1680, 0x2028, 0x2029, 0x202F, 0x205F, 0x3000, 0xFEFF].contains
    c.toNat || (0x2000 ≤ c.toNat && c.toNat ≤ 0x200A)

/-- Removal of leading and trailing white space. -/
def trimWhite (cs : List Char) : List Char :=
  ((cs.dropWhile isStrWhiteSpace).reverse.dropWhile isStrWhiteSpace).reverse

/-- Value of a digit character in the given radix, if it is one. -/
def digitValue (radix : Nat) (c : Char) : Option Nat :=
  let v :=
    if c.isDigit then c.toNat - 48
    else if 97 ≤ c.toNat && c.toNat ≤ 102 then c.toNat - 87
    else if 65 ≤ c.toNat && c.toNat ≤ 70 then c.toNat - 55
    else radix
  if v < radix then some v else none

/-- Value of a non-empty run of digits in the given radix. -/
def digitsValue (radix : Nat) (cs : List Char) : Option Nat :=
  if cs.isEmpty then none
  else cs.foldl (fun acc c => acc.bind (fun a => (digitValue radix c).map (fun d => a * radix + d)))
    (some 0)

/-- Exponent part `e±digits` (or nothing) of a decimal literal, as an integer. -/
def exponentValue (cs : List Char) : Option Int :=
  match cs with
  | [] => some 0
  | e :: rest =>
    if e == 'e' || e == 'E' then
      match rest with
      | '+' :: ds => (digitsValue 10 ds).map Int.ofNat
      | '-' :: ds => (digitsValue 10 ds).map (fun n => - Int.ofNat n)
      | ds => (digitsValue 10 ds).map Int.ofNat
    else none

/-- Sign class of the number `m * 10 ^ k` after rounding to a double: a non-zero
value rounds to zero exactly when it is at most `2 ^ (-1075)`, half the least
positive double. -/
def roundedClass (m : Nat) (k : Int) : NumClass :=
  if m = 0 then .zero
  else if 0 ≤ k then .positive
  else if 10 ^ k.natAbs < m * 2 ^ 1075 then .positive
  else .zero

/-- Sign class of an unsigned decimal literal (`Infinity`, `12`, `1.5`, `.5`, `5.`,
each with an optional exponent). -/
def unsignedDecimalClass (cs : List Char) : NumClass :=
  if cs = "Infinity".toList then .positive
  else
    let intPart := cs.takeWhile Char.isDigit
    let afterInt := cs.dropWhile Char.isDigit
    let fracPart :=
      match afterInt with
      | '.' :: rest => rest.takeWhile Char.isDigit
      | _ => []
    let afterFrac :=
      match afterInt with
      | '.' :: rest => rest.dropWhile Char.isDigit
      | other => other
    if intPart.isEmpty && fracPart.isEmpty then .nan
    else
      match digitsValue 10 (intPart ++ fracPart), exponentValue afterFrac with
      | some m, some e => roundedClass m (e - fracPart.length)
      | _, _ => .nan

/-- Sign class of `Number(s)` for a string `s` (the `StringToNumber` conversion,
correctly rounded): empty or blank text is `0`; `0x` / `0o` / `0b` literals carry no sign; anything
outside the grammar is `NaN`. -/
def toNumberClass (s : String) : NumClass :=
  match trimWhite s.toList with
  | [] => .zero
  | '0' :: r :: ds =>
    let radix := if r == 'x' || r == 'X' then 16 else if r == 'o' || r == 'O' then 8
      else if r == 'b' || r == 'B' then 2 else 0
    if radix = 0 then unsignedDecimalClass ('0' :: r :: ds)
    else
      match digitsValue radix ds with
      | some m => if m = 0 then .zero else .positive
      | none => .nan
  | '+' :: cs => unsignedDecimalClass cs
  | '-' :: cs =>
    match unsignedDecimalClass cs with
    | .positive => .negative
    | other => other
  | cs => unsignedDecimalClass cs

/-- The global `isNaN`, on the sign class of its coerced argument. -/
def isNaN (x : NumClass) : Bool := x == .nan

/-- The comparison `x <= 0` (false for `NaN`). -/
def leZero (x : NumClass) : Bool := x == .negative || x == .zero

/-! ## The page -/

/-- An `input` element. -/
structure Input where
  id : String
  type : String
  placeholder : String
  value : String
deriving DecidableEq, Repr

/-- The `div` that `addPetFields` builds: a heading and, in document order, the
name, age and breed inputs. -/
structure PetFieldDiv where
  heading : String
  nameInput : Input
  ageInput : Input
  breedInput : Input
deriving DecidableEq, Repr

/-- The inputs of a pet sub-form, in document order. -/
def PetFieldDiv.inputs (d : PetFieldDiv) : List Input :=
  [d.nameInput, d.ageInput, d.breedInput]

/-- State of the page: the two script globals, the properties of the elements the
script touches, and the inputs of the document (those of the static page before
and after the pet-fields container, and the children of the container). -/
structure Page where
  petCounter : Nat
  isDogWalker : Bool
  addPetBtnDisabled : Bool
  petFieldsDisplay : String
  petFields : List PetFieldDiv
  dogWalkerChecked : Bool
  inputsBefore : List Input
  inputsAfter : List Input
deriving DecidableEq, Repr

/-- All inputs of the document, in document order. -/
def Page.inputs (p : Page) : List Input :=
  p.inputsBefore ++ p.petFields.flatMap PetFieldDiv.inputs ++ p.inputsAfter

/-- The lookup `document.getElementById(id)`: the first element with that id, or
`none` for `null`. -/
def Page.getElementById (p : Page) (id : String) : Option Input :=
  p.inputs.find? (fun e => e.id == id)

/-- Modelled from the spec: the static HTML page, which is not part of the
sources. It provides the add-pet button, the dog-walker checkbox and the
pet-fields container required by the DOM contract, the container being empty
when the script starts; its other inputs are arbitrary. -/
structure Html where
  dogWalkerChecked : Bool
  addPetBtnDisabled : Bool
  petFieldsDisplay : String
  inputsBefore : List Input
  inputsAfter : List Input
deriving DecidableEq, Repr

/-- The sub-form for dog number `n`, as written by the template of `addPetFields`. -/
def newPetFieldDiv (n : Nat) : PetFieldDiv where
  heading := "Dog " ++ toString n
  nameInput := ⟨"petName" ++ toString n, "text", "Name", ""⟩
  ageInput := ⟨"petAge" ++ toString n, "number", "Age", ""⟩
  breedInput := ⟨"petBreed" ++ toString n, "text", "Breed", ""⟩

/-- Function `addPetFields`: increment the counter, then append the new sub-form. -/
def addPetFields (p : Page) : Page :=
  let petCounter := p.petCounter + 1
  { p with petCounter := petCounter, petFields := p.petFields ++ [newPetFieldDiv petCounter] }

/-- The click listener of the add-pet button. -/
def onAddPetClick (p : Page) : Page :=
  if !p.isDogWalker then addPetFields p else p

/-- Function `disableAddPet`. -/
def disableAddPet (p : Page) : Page :=
  { p with isDogWalker := true, addPetBtnDisabled := true, petFieldsDisplay := "none" }

/-- Function `enableAddPet`. -/
def enableAddPet (p : Page) : Page :=
  { p with isDogWalker := false, addPetBtnDisabled := false, petFieldsDisplay := "block" }

/-- The change listener of the dog-walker checkbox, run after the browser has set
the checkbox to `checked`. -/
def onDogWalkerChange (checked : Bool) (p : Page) : Page :=
  let p := { p with dogWalkerChecked := checked }
  if p.dogWalkerChecked then disableAddPet p else enableAddPet p

/-- The top-level script run at page load: the globals start at `0` and `false`,
and a checkbox that is already checked disables the pet fields. -/
def pageLoad (html : Html) : Page :=
  let p : Page :=
    { petCounter := 0, isDogWalker := false, addPetBtnDisabled := html.addPetBtnDisabled,
      petFieldsDisplay := html.petFieldsDisplay, petFields := [],
      dogWalkerChecked := html.dogWalkerChecked, inputsBefore := html.inputsBefore,
      inputsAfter := html.inputsAfter }
  if p.dogWalkerChecked then disableAddPet p else p

/-- Replace the value of the `k`-th input of a list. -/
def setValueAt (k : Nat) (v : String) : List Input → List Input
  | [] => []
  | e :: es =>
    match k with
    | 0 => { e with value := v } :: es
    | k + 1 => e :: setValueAt k v es

/-- The three inputs of a pet sub-form. -/
inductive PetField where
  | name
  | age
  | breed
deriving DecidableEq, Repr

/-- Replace the value of one input of a sub-form. -/
def PetFieldDiv.setValue (d : PetFieldDiv) (f : PetField) (v : String) : PetFieldDiv :=
  match f with
  | .name => { d with nameInput := { d.nameInput with value := v } }
  | .age => { d with ageInput := { d.ageInput with value := v } }
  | .breed => { d with breedInput := { d.breedInput with value := v } }

/-- Replace the value of one input of the `k`-th sub-form of a list. -/
def setPetValueAt (k : Nat) (f : PetField) (v : String) : List PetFieldDiv → List PetFieldDiv
  | [] => []
  | d :: ds =>
    match k with
    | 0 => d.setValue f v :: ds
    | k + 1 => d :: setPetValueAt k f v ds

/-- What the user can do to the page between load and submission. -/
inductive UserAction where
  /-- a click on the add-pet button -/
  | clickAddPet
  /-- setting the dog-walker checkbox -/
  | setDogWalker (checked : Bool)
  /-- typing into the `k`-th input before the container -/
  | editBefore (k : Nat) (value : String)
  /-- typing into an input of the `k`-th pet sub-form -/
  | editPet (k : Nat) (field : PetField) (value : String)
  /-- typing into the `k`-th input after the container -/
  | editAfter (k : Nat) (value : String)
deriving DecidableEq, Repr

/-- Effect of one user action on the page. -/
def UserAction.apply (a : UserAction) (p : Page) : Page :=
  match a with
  | .clickAddPet => onAddPetClick p
  | .setDogWalker checked => onDogWalkerChange checked p
  | .editBefore k v => { p with inputsBefore := setValueAt k v p.inputsBefore }
  | .editPet k f v => { p with petFields := setPetValueAt k f v p.petFields }
  | .editAfter k v => { p with inputsAfter := setValueAt k v p.inputsAfter }

/-- The page after a sequence of user actions. -/
def runActions (p : Page) (actions : List UserAction) : Page :=
  actions.foldl (fun q a => a.apply q) p

/-- A page state that the script and the user can produce from some static page. -/
def Reachable (p : Page) : Prop :=
  ∃ html actions, p = runActions (pageLoad html) actions

/-! ## Submission -/

/-- One element of `petData`. The age is the text of the age input. -/
structure PetEntry where
  owner : String
  breed : String
  name : String
  age : String
deriving DecidableEq, Repr

/-- The `user` member of the request body. -/
structure UserPart where
  email : String
  password : String
  dog_walker : Bool
deriving DecidableEq, Repr

/-- The object `requestBody`, which is sent as `JSON.stringify(requestBody)`. -/
structure RequestBody where
  user : UserPart
  dogs : List PetEntry
deriving DecidableEq, Repr

/-- A call of `fetch`: the URL and the members of its init object. -/
structure Request where
  url : String
  method : String
  headers : List (String × String)
  body : Option RequestBody
deriving DecidableEq, Repr

/-- A response: its status and what `.json()` resolves to (`none` when the body
is not JSON and `.json()` rejects). -/
structure Response where
  status : Nat
  body : Option JSValue

/-- The `ok` flag of a response: status in the range 200 to 299. -/
def Response.ok (r : Response) : Bool := 200 ≤ r.status && r.status ≤ 299

/-- Behaviour of the network: the response to each request, or `none` when the
request fails and `fetch` rejects. -/
abbrev Network := Request → Option Response

/-- Observable effects of a submission, in the order they happen. -/
inductive Effect where
  | alert (message : String)
  | fetch (request : Request)
  | consoleError (label : String) (error : JSError)
  | setCookie (cookie : String)
  | navigate (href : String)
  | unhandledRejection (error : JSError)
deriving DecidableEq, Repr

/-- The age test of the collection loop: `isNaN(age) || age <= 0`. -/
def ageInvalid (age : String) : Bool :=
  isNaN (toNumberClass age) || leZero (toNumberClass age)

/-- How the pet collection loop ends. -/
inductive Collected where
  /-- an exception was thrown -/
  | threw (error : JSError)
  /-- the invalid-age alert was shown and `submitForm` returned -/
  | invalidAge
  /-- the loop ran to its end with this `petData` -/
  | done (petData : List PetEntry)
deriving DecidableEq, Repr

/-- The loop `for (let i = 1; i <= petCounter; i++)` of `submitForm`, over the
indices still to visit and the `petData` collected so far. -/
def collectPets (p : Page) (email : String) : List Nat → List PetEntry → Collected
  | [], petData => .done petData
  | i :: rest, petData =>
    match p.getElementById ("petBreed" ++ toString i) with
    | none => .threw .typeError
    | some breedEl =>
      match p.getElementById ("petName" ++ toString i) with
      | none => .threw .typeError
      | some nameEl =>
        match p.getElementById ("petAge" ++ toString i) with
        | none => .threw .typeError
        | some ageEl =>
          if ageInvalid ageEl.value then .invalidAge
          else collectPets p email rest
            (petData ++ [⟨email, breedEl.value, nameEl.value, ageEl.value⟩])

/-- The statements that fill `petData`: the loop when the checkbox is unchecked,
nothing otherwise. -/
def collectPetData (p : Page) (email : String) (isDogWalker : Bool) : Collected :=
  if !isDogWalker then collectPets p email (List.range' 1 p.petCounter) [] else .done []

/-- The chain `response2.json().then(...)`, which `submitForm` neither awaits nor
returns: its effects, a rejection of the chain being unhandled. -/
def tokenChain (response2 : Response) : List Effect :=
  match response2.body with
  | none => [.unhandledRejection .syntaxError]
  | some data =>
    match data.getProp "access_token_cookie" with
    | .error e => [.unhandledRejection e]
    | .ok access_token =>
      match access_token.toStr with
      | none => [.unhandledRejection .typeError]
      | some text =>
        [.setCookie ("access_token_cookie=" ++ text ++ "; path=/user"), .navigate "/user"]

/-- The `try` block of `submitForm`: the effects performed, and the exception that
ended the block, if one did. -/
def submitTry (p : Page) (net : Network) : List Effect × Option JSError :=
  match p.getElementById "exampleInputEmail1" with
  | none => ([], some .typeError)
  | some emailEl =>
    let email := emailEl.value
    match p.getElementById "exampleInputPassword1" with
    | none => ([], some .typeError)
    | some passwordEl =>
      let password := passwordEl.value
      let checkUserExistsEndpoint := "/check_user_exists?email=" ++ encodeURIComponent email
      let isDogWalker := p.dogWalkerChecked
      if !includes email '@' then
        ([.alert "Please enter a valid email address (missing '@')."], none)
      else if email == "" || password == "" then
        ([.alert "Please enter both email and password."], none)
      else
        let get : Request := ⟨checkUserExistsEndpoint, "GET", [], none⟩
        match net get with
        | none => ([.fetch get], some .networkError)
        | some response =>
          match response.body with
          | none => ([.fetch get], some .syntaxError)
          | some isRegistered =>
            if !isRegistered.truthy && !isDogWalker && p.petCounter == 0 then
              ([.fetch get, .alert "Non-dog walkers must add at least one dog."], none)
            else
              match collectPetData p email isDogWalker with
              | .threw e => ([.fetch get], some e)
              | .invalidAge =>
                ([.fetch get, .alert "Invalid age. Age must be a positive number."], none)
              | .done petData =>
                let requestBody : RequestBody := ⟨⟨email, password, isDogWalker⟩, petData⟩
                let endpoint := if isRegistered.truthy then "/login" else "/register"
                let post : Request :=
                  ⟨endpoint, "POST", [("Content-Type", "application/json")], some requestBody⟩
                match net post with
                | none => ([.fetch get, .fetch post], some .networkError)
                | some response2 =>
                  if response2.status == 401 then
                    ([.fetch get, .fetch post, .alert "Incorrect password"], none)
                  else if response.ok then
                    (.fetch get :: .fetch post :: tokenChain response2, none)
                  else
                    ([.fetch get, .fetch post,
                      .alert "Failed to submit the form. Please try again later."], none)

/-- Function `submitForm`: the `try` block, then the `catch` handler when the block
threw. -/
def submitForm (p : Page) (net : Network) : List Effect :=
  match submitTry p net with
  | (effects, none) => effects
  | (effects, some error) =>
    effects ++ [.consoleError "An error occurred:" error,
      .alert "An error occurred. Please try again later."]

/-- Effects of `submitForm` from the moment the POST has been issued: the catch
handler when the request fails, otherwise the three-way branch on the responses. -/
def outcomeEffects (response : Response) (result : Option Response) : List Effect :=
  match result with
  | none =>
    [.consoleError "An error occurred:" .networkError,
      .alert "An error occurred. Please try again later."]
  | some response2 =>
    if response2.status == 401 then [.alert "Incorrect password"]
    else if response.ok then tokenChain response2
    else [.alert "Failed to submit the form. Please try again later."]

/-- The existence-check request for an email. -/
def checkRequest (email : String) : Request :=
  ⟨"/check_user_exists?email=" ++ encodeURIComponent email, "GET", [], none⟩

/-- The login / registration request for the given existence flag and body. -/
def postRequest (isRegistered : JSValue) (body : RequestBody) : Request :=
  ⟨if isRegistered.truthy then "/login" else "/register", "POST",
    [("Content-Type", "application/json")], some body⟩

/-- The ids of the three inputs of a sub-form: name, age, breed. -/
def PetFieldDiv.ids (d : PetFieldDiv) : String × String × String :=
  (d.nameInput.id, d.ageInput.id, d.breedInput.id)

/-- Invariant of the pet-fields container: it holds `petCounter` sub-forms and the
inputs of the `i`-th (counting from 1) carry the ids `petName<i>`, `petAge<i>`,
`petBreed<i>`. -/
def Page.petIdsOk (p : Page) : Prop :=
  p.petFields.map PetFieldDiv.ids
    = (List.range' 1 p.petCounter).map (fun n => (newPetFieldDiv n).ids)

/-- Whether an effect is an alert. -/
def Effect.isAlert : Effect → Bool
  | .alert _ => true
  | _ => false

/-! ## Sample pages and networks -/

/-- A static page whose email and password inputs come before the container. -/
def sampleHtml (checked : Bool) : Html :=
  ⟨checked, false, "",
    [⟨"exampleInputEmail1", "email", "Enter email", ""⟩,
     ⟨"exampleInputPassword1", "password", "Password", ""⟩], []⟩

/-- Typing the email and the password. -/
def enterCredentials (email password : String) : List UserAction :=
  [.editBefore 0 email, .editBefore 1 password]

/-- Adding a dog as the `k + 1`-th sub-form and filling it in. -/
def enterDog (k : Nat) (name age breed : String) : List UserAction :=
  [.clickAddPet, .editPet k .name name, .editPet k .age age, .editPet k .breed breed]

/-- Owner `a@b.com` / `pw` with one dog: Rex, 4, Lab. -/
def rexPage : Page :=
  runActions (pageLoad (sampleHtml false))
    (enterCredentials "a@b.com" "pw" ++ enterDog 0 "Rex" "4" "Lab")

/-- Owner `a@b.com` / `pw` with one dog whose age is `-3`. -/
def badAgePage : Page :=
  runActions (pageLoad (sampleHtml false))
    (enterCredentials "a@b.com" "pw" ++ enterDog 0 "Rex" "-3" "Lab")

/-- Owner `a@b.com` / `pw` who added no dog. -/
def noPetsPage : Page :=
  runActions (pageLoad (sampleHtml false)) (enterCredentials "a@b.com" "pw")

/-- Dog walker `a@b.com` / `pw`: the checkbox is checked at load. -/
def walkerPage : Page :=
  runActions (pageLoad (sampleHtml true)) (enterCredentials "a@b.com" "pw")

/-- An email without `@`. -/
def noAtPage : Page :=
  runActions (pageLoad (sampleHtml false)) (enterCredentials "ab.com" "pw")

/-- A network that answers the existence check with `200` and the given flag, and
every POST with the given response. -/
def replyNetwork (isRegistered : Bool) (reply : Response) : Network :=
  fun r => if r.method == "GET" then some ⟨200, some (.bool isRegistered)⟩ else some reply

/-- A successful reply carrying the token `tok123`. -/
def tokenReply : Response :=
  ⟨200, some (.obj [("access_token_cookie", .str "tok123")])⟩

/-- A network on which every request fails. -/
def offlineNetwork : Network := fun _ => none

/-! ## Shape of a submission -/

theorem fetch_not_mem_tokenChain (response2 : Response) (r : Request) :
    Effect.fetch r ∉ tokenChain response2 := by
  unfold tokenChain
  split
  · simp
  · split
    · simp
    · split <;> simp

/-- Nothing after the POST is a request. -/
theorem fetch_not_mem_outcomeEffects (response : Response) (result : Option Response)
    (r : Request) : Effect.fetch r ∉ outcomeEffects response result := by
  unfold outcomeEffects
  split
  · simp
  · split
    · simp
    · split
      · exact fetch_not_mem_tokenChain _ r
      · simp

/-- Effects of a submission whose inputs pass validation, whose existence check
answers and whose pet collection completes. -/
theorem submitForm_of_collected (p : Page) (net : Network) (emailEl passwordEl : Input)
    (response : Response) (isRegistered : JSValue) (petData : List PetEntry)
    (hE : p.getElementById "exampleInputEmail1" = some emailEl)
    (hP : p.getElementById "exampleInputPassword1" = some passwordEl)
    (hat : includes emailEl.value '@' = true)
    (hempty : ¬ (emailEl.value == "" || passwordEl.value == "") = true)
    (hG : net (checkRequest emailEl.value) = some response)
    (hB : response.body = some isRegistered)
    (hguard : ¬ (!isRegistered.truthy && !p.dogWalkerChecked && p.petCounter == 0) = true)
    (hC : collectPetData p emailEl.value p.dogWalkerChecked = .done petData) :
    submitForm p net =
      .fetch (checkRequest emailEl.value)
        :: .fetch (postRequest isRegistered
            ⟨⟨emailEl.value, passwordEl.value, p.dogWalkerChecked⟩, petData⟩)
        :: outcomeEffects response (net (postRequest isRegistered
            ⟨⟨emailEl.value, passwordEl.value, p.dogWalkerChecked⟩, petData⟩)) := by
  unfold checkRequest at hG
  simp only [submitForm, submitTry, hE, hP, hat, hempty, hG, hB, hguard, hC, outcomeEffects,
    checkRequest, postRequest]
  cases net ⟨if isRegistered.truthy then "/login" else "/register", "POST",
      [("Content-Type", "application/json")],
      some ⟨⟨emailEl.value, passwordEl.value, p.dogWalkerChecked⟩, petData⟩⟩ with
  | none => simp
  | some response2 =>
    by_cases h401 : (response2.status == 401) = true
    · simp [h401]
    · by_cases hok : response.ok = true <;> simp [h401, hok]

/-- A POST among the effects fixes the whole path that `submitForm` took. -/
theorem submitForm_post_inversion (p : Page) (net : Network) (post : Request)
    (hpost : Effect.fetch post ∈ submitForm p net) (hm : post.method = "POST") :
    ∃ emailEl passwordEl response isRegistered petData,
      p.getElementById "exampleInputEmail1" = some emailEl ∧
      p.getElementById "exampleInputPassword1" = some passwordEl ∧
      includes emailEl.value '@' = true ∧ emailEl.value ≠ "" ∧ passwordEl.value ≠ "" ∧
      net (checkRequest emailEl.value) = some response ∧
      response.body = some isRegistered ∧
      collectPetData p emailEl.value p.dogWalkerChecked = .done petData ∧
      post = postRequest isRegistered
        ⟨⟨emailEl.value, passwordEl.value, p.dogWalkerChecked⟩, petData⟩ ∧
      submitForm p net =
        .fetch (checkRequest emailEl.value) :: .fetch post
          :: outcomeEffects response (net post) := by
  cases hE : p.getElementById "exampleInputEmail1" with
  | none => simp [submitForm, submitTry, hE] at hpost
  | some emailEl =>
  cases hP : p.getElementById "exampleInputPassword1" with
  | none => simp [submitForm, submitTry, hE, hP] at hpost
  | some passwordEl =>
  by_cases hat : includes emailEl.value '@' = true
  swap
  · simp [submitForm, submitTry, hE, hP, hat] at hpost
  by_cases hempty : (emailEl.value == "" || passwordEl.value == "") = true
  · simp [submitForm, submitTry, hE, hP, hat, hempty] at hpost
  cases hG : net (checkRequest emailEl.value) with
  | none =>
    unfold checkRequest at hG
    simp [submitForm, submitTry, hE, hP, hat, hempty, hG] at hpost
    rw [hpost] at hm; simp at hm
  | some response =>
  cases hB : response.body with
  | none =>
    unfold checkRequest at hG
    simp [submitForm, submitTry, hE, hP, hat, hempty, hG, hB] at hpost
    rw [hpost] at hm; simp at hm
  | some isRegistered =>
  by_cases hguard : (!isRegistered.truthy && !p.dogWalkerChecked && p.petCounter == 0) = true
  · unfold checkRequest at hG
    simp [submitForm, submitTry, hE, hP, hat, hempty, hG, hB, hguard] at hpost
    rw [hpost] at hm; simp at hm
  cases hC : collectPetData p emailEl.value p.dogWalkerChecked with
  | threw e =>
    unfold checkRequest at hG
    simp [submitForm, submitTry, hE, hP, hat, hempty, hG, hB, hguard, hC] at hpost
    rw [hpost] at hm; simp at hm
  | invalidAge =>
    unfold checkRequest at hG
    simp [submitForm, submitTry, hE, hP, hat, hempty, hG, hB, hguard, hC] at hpost
    rw [hpost] at hm; simp at hm
  | done petData =>
  have htrace := submitForm_of_collected p net emailEl passwordEl response isRegistered petData
    hE hP hat hempty hG hB hguard hC
  rw [htrace] at hpost
  simp only [List.mem_cons] at hpost
  rcases hpost with h | h | h
  · exfalso
    have : post = checkRequest emailEl.value := by simpa using h
    rw [this] at hm; simp [checkRequest] at hm
  · have hp : post = postRequest isRegistered
        ⟨⟨emailEl.value, passwordEl.value, p.dogWalkerChecked⟩, petData⟩ := by simpa using h
    refine ⟨emailEl, passwordEl, response, isRegistered, petData, rfl, rfl, hat, ?_, ?_, hG, hB,
      hC, hp, ?_⟩
    · intro h0; simp [h0] at hempty
    · intro h0; simp [h0] at hempty
    · rw [htrace, hp]
  · exact absurd h (fetch_not_mem_outcomeEffects _ _ _)

/-! ## The pet-fields container -/

theorem setPetValueAt_ids (f : PetField) (v : String) :
    ∀ (ds : List PetFieldDiv) (k : Nat),
      (setPetValueAt k f v ds).map PetFieldDiv.ids = ds.map PetFieldDiv.ids := by
  intro ds
  induction ds with
  | nil => intro k; simp [setPetValueAt]
  | cons d ds ih =>
    intro k
    cases k with
    | zero => cases f <;> rfl
    | succ k => simp [setPetValueAt, ih k]

/-- The container invariant holds at page load. -/
theorem petIdsOk_pageLoad (html : Html) : (pageLoad html).petIdsOk := by
  unfold pageLoad
  dsimp only
  split <;> simp [Page.petIdsOk, disableAddPet]

/-- Every user action keeps the container invariant. -/
theorem petIdsOk_apply (a : UserAction) (p : Page) (h : p.petIdsOk) : (a.apply p).petIdsOk := by
  unfold Page.petIdsOk at *
  cases a with
  | clickAddPet =>
    simp only [UserAction.apply, onAddPetClick]
    split
    · simp only [addPetFields, List.map_append, h, List.range'_1_concat, List.map_cons,
        List.map_nil, Nat.add_comm]
    · exact h
  | setDogWalker checked =>
    simp only [UserAction.apply, onDogWalkerChange]
    split <;> simpa [disableAddPet, enableAddPet] using h
  | editBefore k v => simpa [UserAction.apply] using h
  | editPet k f v => simpa [UserAction.apply, setPetValueAt_ids] using h
  | editAfter k v => simpa [UserAction.apply] using h

/-- Sequences of user actions keep the container invariant. -/
theorem petIdsOk_runActions (actions : List UserAction) :
    ∀ p : Page, p.petIdsOk → (runActions p actions).petIdsOk := by
  induction actions with
  | nil => intro p h; exact h
  | cons a rest ih => intro p h; exact ih _ (petIdsOk_apply a p h)

/-- Every reachable page satisfies the container invariant. -/
theorem petIdsOk_of_reachable (p : Page) (h : Reachable p) : p.petIdsOk := by
  obtain ⟨html, actions, rfl⟩ := h
  exact petIdsOk_runActions actions _ (petIdsOk_pageLoad html)

/-- An input of the document is found by its id. -/
theorem getElementById_isSome_of_mem (p : Page) (e : Input) (h : e ∈ p.inputs) :
    (p.getElementById e.id).isSome = true := by
  unfold Page.getElementById
  rw [List.find?_isSome]
  exact ⟨e, h, by simp⟩

/-- In a page that satisfies the container invariant, the three inputs that the
collection loop looks up for an index `1 ≤ i ≤ petCounter` exist. -/
theorem pet_inputs_exist (p : Page) (h : p.petIdsOk) (i : Nat) (h1 : 1 ≤ i)
    (h2 : i ≤ p.petCounter) :
    (p.getElementById ("petBreed" ++ toString i)).isSome = true ∧
    (p.getElementById ("petName" ++ toString i)).isSome = true ∧
    (p.getElementById ("petAge" ++ toString i)).isSome = true := by
  have hmem : (newPetFieldDiv i).ids ∈ p.petFields.map PetFieldDiv.ids := by
    rw [h]
    exact List.mem_map.mpr ⟨i, by simp [List.mem_range'_1]; omega, rfl⟩
  obtain ⟨d, hd, hids⟩ := List.mem_map.mp hmem
  have hin : ∀ e ∈ d.inputs, e ∈ p.inputs := by
    intro e he
    unfold Page.inputs
    simp only [List.mem_append, List.mem_flatMap]
    exact Or.inl (Or.inr ⟨d, hd, he⟩)
  simp only [PetFieldDiv.ids, newPetFieldDiv, Prod.mk.injEq] at hids
  obtain ⟨hn, ha, hb⟩ := hids
  refine ⟨?_, ?_, ?_⟩
  · rw [← hb]; exact getElementById_isSome_of_mem p _ (hin _ (by simp [PetFieldDiv.inputs]))
  · rw [← hn]; exact getElementById_isSome_of_mem p _ (hin _ (by simp [PetFieldDiv.inputs]))
  · rw [← ha]; exact getElementById_isSome_of_mem p _ (hin _ (by simp [PetFieldDiv.inputs]))

/-! ## The collection loop -/

theorem collectPets_done (p : Page) (email : String) :
    ∀ (is : List Nat) (acc dogs : List PetEntry),
      collectPets p email is acc = .done dogs →
      ∃ entries, dogs = acc ++ entries ∧ entries.length = is.length ∧
        ∀ k i : Nat, is[k]? = some i →
          ∃ breedEl nameEl ageEl,
            p.getElementById ("petBreed" ++ toString i) = some breedEl ∧
            p.getElementById ("petName" ++ toString i) = some nameEl ∧
            p.getElementById ("petAge" ++ toString i) = some ageEl ∧
            ageInvalid ageEl.value = false ∧
            entries[k]? = some (⟨email, breedEl.value, nameEl.value, ageEl.value⟩ : PetEntry) := by
  intro is
  induction is with
  | nil =>
    intro acc dogs h
    simp only [collectPets, Collected.done.injEq] at h
    exact ⟨[], by simp [h], rfl, by simp⟩
  | cons i rest ih =>
    intro acc dogs h
    unfold collectPets at h
    cases hb : p.getElementById ("petBreed" ++ toString i) with
    | none => simp [hb] at h
    | some breedEl =>
    cases hn : p.getElementById ("petName" ++ toString i) with
    | none => simp [hb, hn] at h
    | some nameEl =>
    cases ha : p.getElementById ("petAge" ++ toString i) with
    | none => simp [hb, hn, ha] at h
    | some ageEl =>
    by_cases hinv : ageInvalid ageEl.value = true
    · simp [hb, hn, ha, hinv] at h
    · simp only [hb, hn, ha, hinv] at h
      obtain ⟨entries, hdogs, hlen, hall⟩ := ih _ _ h
      refine ⟨⟨email, breedEl.value, nameEl.value, ageEl.value⟩ :: entries, ?_, ?_, ?_⟩
      · simp [hdogs]
      · simp [hlen]
      · intro k j hk
        cases k with
        | zero =>
          simp only [List.getElem?_cons_zero, Option.some.injEq] at hk
          subst hk
          exact ⟨breedEl, nameEl, ageEl, hb, hn, ha, by simpa using hinv, by simp⟩
        | succ k =>
          simp only [List.getElem?_cons_succ] at hk ⊢
          exact hall k j hk

/-- When every looked-up input exists and some age is invalid, the loop ends in the invalid-age alert. -/
theorem collectPets_invalidAge (p : Page) (email : String) :
    ∀ (is : List Nat) (acc : List PetEntry),
      (∀ i ∈ is, (p.getElementById ("petBreed" ++ toString i)).isSome = true ∧
        (p.getElementById ("petName" ++ toString i)).isSome = true ∧
        (p.getElementById ("petAge" ++ toString i)).isSome = true) →
      (∃ i ∈ is, ∃ ageEl, p.getElementById ("petAge" ++ toString i) = some ageEl ∧
        ageInvalid ageEl.value = true) →
      collectPets p email is acc = .invalidAge := by
  intro is
  induction is with
  | nil => intro acc _ h; obtain ⟨i, hi, _⟩ := h; simp at hi
  | cons i rest ih =>
    intro acc hex hbad
    have hi := hex i (List.mem_cons_self _ _)
    obtain ⟨breedEl, hb⟩ := Option.isSome_iff_exists.mp hi.1
    obtain ⟨nameEl, hn⟩ := Option.isSome_iff_exists.mp hi.2.1
    obtain ⟨ageEl, ha⟩ := Option.isSome_iff_exists.mp hi.2.2
    unfold collectPets
    simp only [hb, hn, ha]
    by_cases hinv : ageInvalid ageEl.value = true
    · simp [hinv]
    · simp only [hinv]
      apply ih
      · intro j hj; exact hex j (List.mem_cons_of_mem _ hj)
      · obtain ⟨j, hj, el, hel, hbadj⟩ := hbad
        rcases List.mem_cons.mp hj with rfl | hj
        · rw [ha] at hel
          cases hel
          exact absurd hbadj hinv
        · exact ⟨j, hj, el, hel, hbadj⟩

/-! ## Claims on the field manager -/

theorem runActions_clicks (n : Nat) :
    ∀ p : Page, p.isDogWalker = false →
      runActions p (List.replicate n .clickAddPet) =
        { p with petCounter := p.petCounter + n,
                 petFields := p.petFields
                   ++ (List.range' (p.petCounter + 1) n).map newPetFieldDiv } := by
  induction n with
  | zero => intro p _; simp [runActions]
  | succ n ih =>
    intro p hp
    have hstep : runActions p (List.replicate (n + 1) .clickAddPet)
        = runActions (addPetFields p) (List.replicate n .clickAddPet) := by
      simp [runActions, List.replicate_succ, UserAction.apply, onAddPetClick, hp]
    rw [hstep, ih (addPetFields p) (by simpa [addPetFields] using hp)]
    simp [addPetFields, List.range'_succ, Nat.add_assoc, Nat.add_comm 1 n]

/-- C9: after `N` clicks of the add-pet button in Owner mode from the page-load
state, `petCounter` is `N`, the container holds exactly `N` sub-forms, the `i`-th
being the sub-form numbered `i` with inputs `petName<i>`, `petAge<i>`,
`petBreed<i>`, and every element that the collection loop of `submitForm` looks
up for `i = 1..petCounter` exists. -/
theorem add_pet_clicks_count (html : Html) (N : Nat) (howner : html.dogWalkerChecked = false) :
    (runActions (pageLoad html) (List.replicate N .clickAddPet)).petCounter = N ∧
    (runActions (pageLoad html) (List.replicate N .clickAddPet)).petFields.length = N ∧
    (runActions (pageLoad html) (List.replicate N .clickAddPet)).petFields
      = (List.range' 1 N).map newPetFieldDiv ∧
    (∀ i, (newPetFieldDiv i).heading = "Dog " ++ toString i ∧
      (newPetFieldDiv i).inputs.map Input.id
        = ["petName" ++ toString i, "petAge" ++ toString i, "petBreed" ++ toString i]) ∧
    ∀ i, 1 ≤ i →
      i ≤ (runActions (pageLoad html) (List.replicate N .clickAddPet)).petCounter →
      ((runActions (pageLoad html) (List.replicate N .clickAddPet)).getElementById
        ("petBreed" ++ toString i)).isSome = true ∧
      ((runActions (pageLoad html) (List.replicate N .clickAddPet)).getElementById
        ("petName" ++ toString i)).isSome = true ∧
      ((runActions (pageLoad html) (List.replicate N .clickAddPet)).getElementById
        ("petAge" ++ toString i)).isSome = true := by
  have hload : (pageLoad html).isDogWalker = false ∧ (pageLoad html).petCounter = 0 ∧
      (pageLoad html).petFields = [] := by
    simp [pageLoad, howner]
  have hrun := runActions_clicks N (pageLoad html) hload.1
  refine ⟨?_, ?_, ?_, ?_, ?_⟩
  · rw [hrun]; simp [hload.2.1]
  · rw [hrun]; simp [hload.2.2]
  · rw [hrun]; simp [hload.2.1, hload.2.2]
  · intro i; exact ⟨rfl, rfl⟩
  · intro i h1 h2
    exact pet_inputs_exist _ (petIdsOk_of_reachable _ ⟨html, _, rfl⟩) i h1 h2

/-- Two clicks on the sample page loaded in Owner mode. -/
theorem add_pet_clicks_count_witness :
    (sampleHtml false).dogWalkerChecked = false ∧
    (runActions (pageLoad (sampleHtml false)) (List.replicate 2 .clickAddPet)).petCounter = 2 ∧
    (runActions (pageLoad (sampleHtml false)) (List.replicate 2 .clickAddPet)).petFields
      = [newPetFieldDiv 1, newPetFieldDiv 2] :=
  ⟨rfl, (add_pet_clicks_count (sampleHtml false) 2 rfl).1,
    (add_pet_clicks_count (sampleHtml false) 2 rfl).2.2.1⟩

/-- After `disableAddPet`, clicks leave the page as it is. -/
theorem iterate_click_disabled (p : Page) (n : Nat) :
    onAddPetClick^[n] (disableAddPet p) = disableAddPet p :=
  Function.iterate_fixed (by simp [onAddPetClick, disableAddPet]) n

/-- C10: in every page state, `disableAddPet` hides the pet fields, disables the
add-pet button and turns every later add-pet click into a no-op; `enableAddPet`
shows the fields and lets a click add a sub-form again; neither changes
`petCounter` or the list of sub-forms; each is idempotent, and so is the change
listener of the checkbox. -/
theorem dog_walker_toggle (p : Page) :
    ((disableAddPet p).petFieldsDisplay = "none" ∧ (disableAddPet p).addPetBtnDisabled = true ∧
      (disableAddPet p).isDogWalker = true ∧
      ∀ n, onAddPetClick^[n] (disableAddPet p) = disableAddPet p) ∧
    ((enableAddPet p).petFieldsDisplay = "block" ∧ (enableAddPet p).addPetBtnDisabled = false ∧
      (enableAddPet p).isDogWalker = false ∧
      onAddPetClick (enableAddPet p) = addPetFields (enableAddPet p) ∧
      (onAddPetClick (enableAddPet p)).petCounter = p.petCounter + 1) ∧
    ((disableAddPet p).petCounter = p.petCounter ∧ (disableAddPet p).petFields = p.petFields ∧
      (enableAddPet p).petCounter = p.petCounter ∧ (enableAddPet p).petFields = p.petFields) ∧
    (disableAddPet (disableAddPet p) = disableAddPet p ∧
      enableAddPet (enableAddPet p) = enableAddPet p) ∧
    (∀ checked, onDogWalkerChange checked p =
        (if checked then disableAddPet else enableAddPet) { p with dogWalkerChecked := checked }) ∧
    ∀ checked, onDogWalkerChange checked (onDogWalkerChange checked p)
      = onDogWalkerChange checked p := by
  refine ⟨⟨rfl, rfl, rfl, iterate_click_disabled p⟩, ⟨rfl, rfl, rfl, ?_, ?_⟩,
    ⟨rfl, rfl, rfl, rfl⟩, ⟨rfl, rfl⟩, ?_, ?_⟩
  · simp [onAddPetClick, enableAddPet]
  · simp [onAddPetClick, enableAddPet, addPetFields]
  · intro checked; cases checked <;> rfl
  · intro checked; cases checked <;> rfl
/-! ## Claims on the submission -/

/-- C1: when the email value has no `@` (the empty email included), or the email
is empty, or the password is empty, `submitForm` shows exactly one alert and
performs nothing else: no request at all is issued, neither the existence check
nor a POST. -/
theorem submitForm_invalid_input (p : Page) (net : Network) (emailEl passwordEl : Input)
    (hemail : p.getElementById "exampleInputEmail1" = some emailEl)
    (hpassword : p.getElementById "exampleInputPassword1" = some passwordEl)
    (hbad : includes emailEl.value '@' = false ∨ emailEl.value = "" ∨ passwordEl.value = "") :
    (∃ message, submitForm p net = [Effect.alert message]) ∧
    (submitForm p net).countP Effect.isAlert = 1 ∧
    ∀ r, Effect.fetch r ∉ submitForm p net := by
  have h : ∃ message, submitForm p net = [Effect.alert message] := by
    by_cases hat : includes emailEl.value '@' = true
    · have hempty : (emailEl.value == "" || passwordEl.value == "") = true := by
        rcases hbad with h | h | h
        · rw [h] at hat; cases hat
        · simp [h]
        · simp [h]
      exact ⟨"Please enter both email and password.",
        by simp [submitForm, submitTry, hemail, hpassword, hat, hempty]⟩
    · exact ⟨"Please enter a valid email address (missing '@').",
        by simp [submitForm, submitTry, hemail, hpassword, hat]⟩
  obtain ⟨message, hm⟩ := h
  refine ⟨⟨message, hm⟩, ?_, ?_⟩
  · rw [hm]; simp [Effect.isAlert]
  · intro r; rw [hm]; simp

/-- The email `ab.com`, which has no `@`. -/
theorem submitForm_invalid_input_witness :
    noAtPage.getElementById "exampleInputEmail1"
      = some ⟨"exampleInputEmail1", "email", "Enter email", "ab.com"⟩ ∧
    includes "ab.com" '@' = false ∧
    (submitForm noAtPage (replyNetwork false tokenReply)).countP Effect.isAlert = 1 ∧
    ∀ r, Effect.fetch r ∉ submitForm noAtPage (replyNetwork false tokenReply) :=
  ⟨by decide, by decide,
    (submitForm_invalid_input noAtPage (replyNetwork false tokenReply)
      ⟨"exampleInputEmail1", "email", "Enter email", "ab.com"⟩
      ⟨"exampleInputPassword1", "password", "Password", "pw"⟩
      (by decide) (by decide) (Or.inl (by decide))).2⟩

/-- C2: when `submitForm` issues a POST, the effects start with the existence
check, whose response was received and parsed, followed by that POST and by no
further request; the POST goes to `/login` when the existence check returned
`true` (a truthy value) and to `/register` when it returned `false` (a falsy
value). -/
theorem submitForm_post_endpoint (p : Page) (net : Network) (post : Request)
    (hpost : Effect.fetch post ∈ submitForm p net) (hmethod : post.method = "POST") :
    ∃ get response isRegistered rest,
      get.method = "GET" ∧ net get = some response ∧ response.body = some isRegistered ∧
      submitForm p net = .fetch get :: .fetch post :: rest ∧
      (∀ r, Effect.fetch r ∉ rest) ∧
      post.url = (if isRegistered.truthy then "/login" else "/register") ∧
      (isRegistered = .bool true → post.url = "/login") ∧
      (isRegistered = .bool false → post.url = "/register") := by
  obtain ⟨emailEl, passwordEl, response, isRegistered, petData, -, -, -, -, -, hG, hB, -, hp,
    htrace⟩ := submitForm_post_inversion p net post hpost hmethod
  refine ⟨checkRequest emailEl.value, response, isRegistered, _, rfl, hG, hB, htrace,
    fetch_not_mem_outcomeEffects _ _, ?_, ?_, ?_⟩
  · rw [hp]; rfl
  · intro h; rw [hp, h]; rfl
  · intro h; rw [hp, h]; rfl

/-- A new owner with one dog: the POST goes to `/register`. -/
theorem submitForm_post_endpoint_witness :
    Effect.fetch (postRequest (.bool false)
        ⟨⟨"a@b.com", "pw", false⟩, [⟨"a@b.com", "Lab", "Rex", "4"⟩]⟩)
      ∈ submitForm rexPage (replyNetwork false tokenReply) ∧
    ∃ get response isRegistered rest,
      get.method = "GET" ∧ replyNetwork false tokenReply get = some response ∧
      response.body = some isRegistered ∧
      submitForm rexPage (replyNetwork false tokenReply)
        = .fetch get :: .fetch (postRequest (.bool false)
            ⟨⟨"a@b.com", "pw", false⟩, [⟨"a@b.com", "Lab", "Rex", "4"⟩]⟩) :: rest ∧
      (∀ r, Effect.fetch r ∉ rest) ∧
      (postRequest (.bool false)
        ⟨⟨"a@b.com", "pw", false⟩, [⟨"a@b.com", "Lab", "Rex", "4"⟩]⟩).url
        = (if isRegistered.truthy then "/login" else "/register") ∧
      (isRegistered = .bool true → (postRequest (.bool false)
        ⟨⟨"a@b.com", "pw", false⟩, [⟨"a@b.com", "Lab", "Rex", "4"⟩]⟩).url = "/login") ∧
      (isRegistered = .bool false → (postRequest (.bool false)
        ⟨⟨"a@b.com", "pw", false⟩, [⟨"a@b.com", "Lab", "Rex", "4"⟩]⟩).url = "/register") :=
  ⟨by decide, submitForm_post_endpoint rexPage (replyNetwork false tokenReply) _ (by decide) rfl⟩

/-- With the checkbox checked nothing is collected. -/
theorem collectPetData_walker (p : Page) (email : String) :
    collectPetData p email true = .done [] := rfl

/-- With the checkbox unchecked the loop runs over `1..petCounter`. -/
theorem collectPetData_owner (p : Page) (email : String) :
    collectPetData p email false = collectPets p email (List.range' 1 p.petCounter) [] := rfl

/-- C3: the body of every POST that `submitForm` issues is
`{ user: {email, password, dog_walker}, dogs }` with `dog_walker` the checkbox
state; with the checkbox checked `dogs` is empty; with it unchecked `dogs` has
`petCounter` entries and the `i`-th is built from the values of `petBreed<i>`,
`petName<i>` and `petAge<i>`, the age as entered, with the email as owner. In the
scenario `a@b.com` / `pw`, new user, one dog Rex / 4 / Lab, the POST goes to
`/register` with `dogs = [{owner: "a@b.com", breed: "Lab", name: "Rex", age: "4"}]`. -/
theorem submitForm_request_body (p : Page) (net : Network) (post : Request)
    (hpost : Effect.fetch post ∈ submitForm p net) (hmethod : post.method = "POST") :
    (∃ emailEl passwordEl dogs,
      p.getElementById "exampleInputEmail1" = some emailEl ∧
      p.getElementById "exampleInputPassword1" = some passwordEl ∧
      post.body = some ⟨⟨emailEl.value, passwordEl.value, p.dogWalkerChecked⟩, dogs⟩ ∧
      (p.dogWalkerChecked = true → dogs = []) ∧
      (p.dogWalkerChecked = false →
        dogs.length = p.petCounter ∧
        ∀ i, 1 ≤ i → i ≤ p.petCounter →
          ∃ breedEl nameEl ageEl,
            p.getElementById ("petBreed" ++ toString i) = some breedEl ∧
            p.getElementById ("petName" ++ toString i) = some nameEl ∧
            p.getElementById ("petAge" ++ toString i) = some ageEl ∧
            dogs[i - 1]?
              = some (⟨emailEl.value, breedEl.value, nameEl.value, ageEl.value⟩ : PetEntry))) ∧
    submitForm rexPage (replyNetwork false tokenReply)
      = [.fetch ⟨"/check_user_exists?email=a%40b.com", "GET", [], none⟩,
         .fetch ⟨"/register", "POST", [("Content-Type", "application/json")],
           some ⟨⟨"a@b.com", "pw", false⟩, [⟨"a@b.com", "Lab", "Rex", "4"⟩]⟩⟩,
         .setCookie "access_token_cookie=tok123; path=/user",
         .navigate "/user"] := by
  refine ⟨?_, by decide⟩
  obtain ⟨emailEl, passwordEl, response, isRegistered, petData, hE, hP, -, -, -, -, -, hC, hp,
    -⟩ := submitForm_post_inversion p net post hpost hmethod
  refine ⟨emailEl, passwordEl, petData, hE, hP, by rw [hp]; rfl, ?_, ?_⟩
  · intro hchecked
    rw [hchecked, collectPetData_walker] at hC
    exact (Collected.done.inj hC).symm
  · intro hchecked
    rw [hchecked, collectPetData_owner] at hC
    obtain ⟨entries, hdogs, hlen, hall⟩ := collectPets_done p emailEl.value _ _ _ hC
    simp only [List.nil_append] at hdogs
    subst hdogs
    refine ⟨by simpa using hlen, ?_⟩
    intro i h1 h2
    have hidx : (List.range' 1 p.petCounter)[i - 1]? = some i := by
      rw [List.getElem?_range' 1 1 (by omega)]
      simp; omega
    obtain ⟨breedEl, nameEl, ageEl, hb, hn, ha, -, hentry⟩ := hall (i - 1) i hidx
    exact ⟨breedEl, nameEl, ageEl, hb, hn, ha, hentry⟩

/-- A new owner with one dog: the body of the POST to `/register`. -/
theorem submitForm_request_body_witness :
    Effect.fetch ⟨"/register", "POST", [("Content-Type", "application/json")],
        some ⟨⟨"a@b.com", "pw", false⟩, [⟨"a@b.com", "Lab", "Rex", "4"⟩]⟩⟩
      ∈ submitForm rexPage (replyNetwork false tokenReply) ∧
    ∃ emailEl passwordEl dogs,
      rexPage.getElementById "exampleInputEmail1" = some emailEl ∧
      rexPage.getElementById "exampleInputPassword1" = some passwordEl ∧
      (some ⟨⟨"a@b.com", "pw", false⟩, [⟨"a@b.com", "Lab", "Rex", "4"⟩]⟩ : Option RequestBody)
        = some ⟨⟨emailEl.value, passwordEl.value, rexPage.dogWalkerChecked⟩, dogs⟩ ∧
      (rexPage.dogWalkerChecked = true → dogs = []) ∧
      (rexPage.dogWalkerChecked = false →
        dogs.length = rexPage.petCounter ∧
        ∀ i, 1 ≤ i → i ≤ rexPage.petCounter →
          ∃ breedEl nameEl ageEl,
            rexPage.getElementById ("petBreed" ++ toString i) = some breedEl ∧
            rexPage.getElementById ("petName" ++ toString i) = some nameEl ∧
            rexPage.getElementById ("petAge" ++ toString i) = some ageEl ∧
            dogs[i - 1]?
              = some (⟨emailEl.value, breedEl.value, nameEl.value, ageEl.value⟩ : PetEntry)) :=
  ⟨by decide,
    (submitForm_request_body rexPage (replyNetwork false tokenReply)
      ⟨"/register", "POST", [("Content-Type", "application/json")],
        some ⟨⟨"a@b.com", "pw", false⟩, [⟨"a@b.com", "Lab", "Rex", "4"⟩]⟩⟩
      (by decide) rfl).1⟩

/-- C6: with valid email and password, the checkbox unchecked, `petCounter = 0`
and an existence check that returns `false`, `submitForm` performs the existence
check, shows the alert "Non-dog walkers must add at least one dog." and stops: the
GET is the only request and no POST is issued. -/
theorem submitForm_new_owner_without_pets (p : Page) (net : Network)
    (emailEl passwordEl : Input) (response : Response)
    (hemail : p.getElementById "exampleInputEmail1" = some emailEl)
    (hpassword : p.getElementById "exampleInputPassword1" = some passwordEl)
    (hat : includes emailEl.value '@' = true)
    (hne : emailEl.value ≠ "") (hpw : passwordEl.value ≠ "")
    (howner : p.dogWalkerChecked = false) (hzero : p.petCounter = 0)
    (hG : net ⟨"/check_user_exists?email=" ++ encodeURIComponent emailEl.value, "GET", [], none⟩
      = some response)
    (hB : response.body = some (.bool false)) :
    submitForm p net
      = [.fetch ⟨"/check_user_exists?email=" ++ encodeURIComponent emailEl.value, "GET", [],
            none⟩,
         .alert "Non-dog walkers must add at least one dog."] ∧
    ∀ r, Effect.fetch r ∈ submitForm p net → r.method = "GET" := by
  have htrace : submitForm p net
      = [.fetch ⟨"/check_user_exists?email=" ++ encodeURIComponent emailEl.value, "GET", [],
            none⟩,
         .alert "Non-dog walkers must add at least one dog."] := by
    simp [submitForm, submitTry, hemail, hpassword, hat, hne, hpw, howner, hzero, hG, hB,
      JSValue.truthy]
  refine ⟨htrace, ?_⟩
  intro r hr
  rw [htrace] at hr
  simp only [List.mem_cons, Effect.fetch.injEq, List.mem_singleton, reduceCtorEq, or_false,
    List.not_mem_nil] at hr
  rw [hr]

/-- A new owner who added no dog. -/
theorem submitForm_new_owner_without_pets_witness :
    noPetsPage.dogWalkerChecked = false ∧ noPetsPage.petCounter = 0 ∧
    submitForm noPetsPage (replyNetwork false tokenReply)
      = [.fetch ⟨"/check_user_exists?email=" ++ encodeURIComponent "a@b.com", "GET", [], none⟩,
         .alert "Non-dog walkers must add at least one dog."] :=
  ⟨rfl, rfl,
    (submitForm_new_owner_without_pets noPetsPage (replyNetwork false tokenReply)
      ⟨"exampleInputEmail1", "email", "Enter email", "a@b.com"⟩
      ⟨"exampleInputPassword1", "password", "Password", "pw"⟩
      ⟨200, some (.bool false)⟩
      (by decide) (by decide) (by decide) (by decide) (by decide) rfl rfl rfl rfl).1⟩

/-- C4, as the code has it: for a submission that receives a response to its
POST, a status of 401 gives the alert "Incorrect password" and nothing else;
otherwise, when the existence-check response was OK and the body of the POST
response parses as JSON to a value whose `access_token_cookie` member can be read
and converted to text, the cookie `access_token_cookie=<that text>; path=/user` is
set and the page navigates to `/user`, with no alert; otherwise, when the
existence-check response was not OK, the generic failure alert is shown and
nothing else. -/
theorem submitForm_response_handling (p : Page) (net : Network) (get post : Request)
    (response response2 : Response)
    (hget : Effect.fetch get ∈ submitForm p net) (hgm : get.method = "GET")
    (hpost : Effect.fetch post ∈ submitForm p net) (hpm : post.method = "POST")
    (hr1 : net get = some response) (hr2 : net post = some response2) :
    (response2.status = 401 →
      submitForm p net = [.fetch get, .fetch post, .alert "Incorrect password"]) ∧
    (response2.status ≠ 401 → response.ok = true →
      ∀ data token text, response2.body = some data →
        data.getProp "access_token_cookie" = .ok token → token.toStr = some text →
        submitForm p net
          = [.fetch get, .fetch post,
             .setCookie ("access_token_cookie=" ++ text ++ "; path=/user"),
             .navigate "/user"]) ∧
    (response2.status ≠ 401 → response.ok = false →
      submitForm p net
        = [.fetch get, .fetch post,
           .alert "Failed to submit the form. Please try again later."]) := by
  obtain ⟨emailEl, passwordEl, response', isRegistered, petData, -, -, -, -, -, hG, -, -, hp,
    htrace⟩ := submitForm_post_inversion p net post hpost hpm
  have hgeteq : get = checkRequest emailEl.value := by
    rw [htrace] at hget
    simp only [List.mem_cons] at hget
    rcases hget with h | h | h
    · simpa using h
    · exfalso
      have : get = post := by simpa using h
      rw [this, hpm] at hgm
      simp at hgm
    · exact absurd h (fetch_not_mem_outcomeEffects _ _ _)
  have hresp : response' = response := by
    rw [← hgeteq, hr1] at hG
    exact (Option.some.inj hG).symm
  subst hresp
  rw [htrace, hr2, ← hgeteq]
  refine ⟨?_, ?_, ?_⟩
  · intro h401
    simp [outcomeEffects, h401]
  · intro h401 hok data token text hdata htoken htext
    simp [outcomeEffects, h401, hok, tokenChain, hdata, htoken, htext]
  · intro h401 hok
    simp [outcomeEffects, h401, hok]

/-- A new owner with one dog whose registration is answered with the token `tok123`. -/
theorem submitForm_response_handling_witness :
    Effect.fetch (checkRequest "a@b.com") ∈ submitForm rexPage (replyNetwork false tokenReply) ∧
    Effect.fetch (postRequest (.bool false)
        ⟨⟨"a@b.com", "pw", false⟩, [⟨"a@b.com", "Lab", "Rex", "4"⟩]⟩)
      ∈ submitForm rexPage (replyNetwork false tokenReply) ∧
    submitForm rexPage (replyNetwork false tokenReply)
      = [.fetch (checkRequest "a@b.com"),
         .fetch (postRequest (.bool false)
           ⟨⟨"a@b.com", "pw", false⟩, [⟨"a@b.com", "Lab", "Rex", "4"⟩]⟩),
         .setCookie ("access_token_cookie=" ++ "tok123" ++ "; path=/user"),
         .navigate "/user"] :=
  ⟨by decide, by decide,
    (submitForm_response_handling rexPage (replyNetwork false tokenReply)
      (checkRequest "a@b.com")
      (postRequest (.bool false) ⟨⟨"a@b.com", "pw", false⟩, [⟨"a@b.com", "Lab", "Rex", "4"⟩]⟩)
      ⟨200, some (.bool false)⟩ tokenReply
      (by decide) rfl (by decide) rfl rfl rfl).2.1 (by decide) rfl
      (.obj [("access_token_cookie", .str "tok123")]) (.str "tok123") "tok123" rfl rfl rfl⟩

/-- C4 as stated fails: a dog walker logs in, the existence check returns `true`
with status 200, and the POST to `/login` is answered with status 200 and a body
that is not JSON. The status is not 401 and the first response is OK, yet no
cookie is set and the page does not navigate. -/
theorem submitForm_non_json_reply_no_cookie :
    (replyNetwork true ⟨200, none⟩ (checkRequest "a@b.com")).map Response.ok = some true ∧
    (replyNetwork true ⟨200, none⟩
      (postRequest (.bool true) ⟨⟨"a@b.com", "pw", true⟩, []⟩)).map Response.status = some 200 ∧
    submitForm walkerPage (replyNetwork true ⟨200, none⟩)
      = [.fetch (checkRequest "a@b.com"),
         .fetch (postRequest (.bool true) ⟨⟨"a@b.com", "pw", true⟩, []⟩),
         .unhandledRejection .syntaxError] ∧
    (∀ cookie, Effect.setCookie cookie ∉ submitForm walkerPage (replyNetwork true ⟨200, none⟩)) ∧
    ∀ href, Effect.navigate href ∉ submitForm walkerPage (replyNetwork true ⟨200, none⟩) := by
  have h : submitForm walkerPage (replyNetwork true ⟨200, none⟩)
      = [.fetch (checkRequest "a@b.com"),
         .fetch (postRequest (.bool true) ⟨⟨"a@b.com", "pw", true⟩, []⟩),
         .unhandledRejection .syntaxError] := by decide
  refine ⟨rfl, rfl, h, ?_, ?_⟩
  · intro cookie; rw [h]; simp
  · intro href; rw [h]; simp

/-- C7 fails on the code: an owner registers, the existence check returns `false`
with status 200, and the POST to `/register` is answered with a body that is not
JSON, under status 200 or under status 500. The rejection of the detached
`response2.json()` chain reaches no handler: the catch block does not run, nothing
is logged by it and no alert is shown. -/
theorem submitForm_non_json_reply_no_alert :
    (submitForm rexPage (replyNetwork false ⟨200, none⟩)
      = [.fetch (checkRequest "a@b.com"),
         .fetch (postRequest (.bool false)
           ⟨⟨"a@b.com", "pw", false⟩, [⟨"a@b.com", "Lab", "Rex", "4"⟩]⟩),
         .unhandledRejection .syntaxError] ∧
      (submitForm rexPage (replyNetwork false ⟨200, none⟩)).countP Effect.isAlert = 0) ∧
    (submitForm rexPage (replyNetwork false ⟨500, none⟩)
      = [.fetch (checkRequest "a@b.com"),
         .fetch (postRequest (.bool false)
           ⟨⟨"a@b.com", "pw", false⟩, [⟨"a@b.com", "Lab", "Rex", "4"⟩]⟩),
         .unhandledRejection .syntaxError] ∧
      (submitForm rexPage (replyNetwork false ⟨500, none⟩)).countP Effect.isAlert = 0) := by
  refine ⟨⟨?_, ?_⟩, ⟨?_, ?_⟩⟩ <;> decide

/-- C5, as the code has it: in a reachable page with the checkbox unchecked and
valid email and password, when some pet field `i` in `1..petCounter` has an age
that is not a number or not greater than 0, no POST is ever issued; and when the
existence check is answered with a JSON body, the effects are exactly the
existence check followed by the alert "Invalid age. Age must be a positive
number.", so that no pet entry is sent. -/
theorem submitForm_invalid_age (p : Page) (net : Network) (emailEl passwordEl ageEl : Input)
    (i : Nat) (hreach : Reachable p) (howner : p.dogWalkerChecked = false)
    (hemail : p.getElementById "exampleInputEmail1" = some emailEl)
    (hpassword : p.getElementById "exampleInputPassword1" = some passwordEl)
    (hat : includes emailEl.value '@' = true)
    (hne : emailEl.value ≠ "") (hpw : passwordEl.value ≠ "")
    (h1 : 1 ≤ i) (h2 : i ≤ p.petCounter)
    (hage : p.getElementById ("petAge" ++ toString i) = some ageEl)
    (hinv : ageInvalid ageEl.value = true) :
    (∀ r, Effect.fetch r ∈ submitForm p net → r.method ≠ "POST") ∧
    ∀ response isRegistered,
      net ⟨"/check_user_exists?email=" ++ encodeURIComponent emailEl.value, "GET", [], none⟩
        = some response →
      response.body = some isRegistered →
      submitForm p net
        = [.fetch ⟨"/check_user_exists?email=" ++ encodeURIComponent emailEl.value, "GET", [],
              none⟩,
           .alert "Invalid age. Age must be a positive number."] := by
  have hcollect : ∀ email, collectPetData p email p.dogWalkerChecked = .invalidAge := by
    intro email
    rw [howner, collectPetData_owner]
    apply collectPets_invalidAge
    · intro j hj
      rw [List.mem_range'_1] at hj
      exact pet_inputs_exist p (petIdsOk_of_reachable p hreach) j hj.1 (by omega)
    · exact ⟨i, by rw [List.mem_range'_1]; omega, ageEl, hage, hinv⟩
  constructor
  · intro r hr hpost
    obtain ⟨emailEl', -, -, -, petData, -, -, -, -, -, -, -, hC, -, -⟩ :=
      submitForm_post_inversion p net r hr hpost
    rw [hcollect] at hC
    cases hC
  · intro response isRegistered hG hB
    have hpos : p.petCounter ≠ 0 := by omega
    simp [submitForm, submitTry, hemail, hpassword, hat, hne, hpw, hG, hB, hpos, hcollect]

/-- An owner whose only dog has the age `-3`, on a network that answers. -/
theorem submitForm_invalid_age_witness :
    Reachable badAgePage ∧ badAgePage.dogWalkerChecked = false ∧
    badAgePage.getElementById ("petAge" ++ toString 1) = some ⟨"petAge1", "number", "Age", "-3"⟩ ∧
    ageInvalid "-3" = true ∧
    submitForm badAgePage (replyNetwork false tokenReply)
      = [.fetch ⟨"/check_user_exists?email=" ++ encodeURIComponent "a@b.com", "GET", [], none⟩,
         .alert "Invalid age. Age must be a positive number."] :=
  ⟨⟨_, _, rfl⟩, rfl, by decide, by decide,
    (submitForm_invalid_age badAgePage (replyNetwork false tokenReply)
      ⟨"exampleInputEmail1", "email", "Enter email", "a@b.com"⟩
      ⟨"exampleInputPassword1", "password", "Password", "pw"⟩
      ⟨"petAge1", "number", "Age", "-3"⟩ 1 ⟨_, _, rfl⟩ rfl
      (by decide) (by decide) (by decide) (by decide) (by decide) (by decide) (by decide)
      (by decide) (by decide)).2 ⟨200, some (.bool false)⟩ (.bool false) rfl rfl⟩

/-- C5 as stated fails: an owner with valid email and password has one dog of age
`-3`, and the existence check fails on the network. The catch handler shows the
generic alert; the alert "Invalid age. Age must be a positive number." is not
shown. -/
theorem submitForm_invalid_age_offline :
    Reachable badAgePage ∧ badAgePage.dogWalkerChecked = false ∧
    badAgePage.getElementById "petAge1" = some ⟨"petAge1", "number", "Age", "-3"⟩ ∧
    ageInvalid "-3" = true ∧
    submitForm badAgePage offlineNetwork
      = [.fetch (checkRequest "a@b.com"),
         .consoleError "An error occurred:" .networkError,
         .alert "An error occurred. Please try again later."] ∧
    Effect.alert "Invalid age. Age must be a positive number."
      ∉ submitForm badAgePage offlineNetwork := by
  refine ⟨⟨_, _, rfl⟩, rfl, by decide, by decide, by decide, by decide⟩

/-- C8, as the code has it: with valid email and password, the checkbox unchecked
and `petCounter = 0`, the zero pet count is rejected only for an email that is not
registered yet: when the existence check returns a falsy value the pet-count
alert is shown and no POST is issued; when it returns a truthy value the alert is
not shown and the POST to `/login` is issued with an empty `dogs` list. -/
theorem submitForm_zero_pets (p : Page) (net : Network) (emailEl passwordEl : Input)
    (response : Response) (isRegistered : JSValue)
    (hemail : p.getElementById "exampleInputEmail1" = some emailEl)
    (hpassword : p.getElementById "exampleInputPassword1" = some passwordEl)
    (hat : includes emailEl.value '@' = true)
    (hne : emailEl.value ≠ "") (hpw : passwordEl.value ≠ "")
    (howner : p.dogWalkerChecked = false) (hzero : p.petCounter = 0)
    (hG : net (checkRequest emailEl.value) = some response)
    (hB : response.body = some isRegistered) :
    (isRegistered.truthy = false →
      submitForm p net
        = [.fetch (checkRequest emailEl.value),
           .alert "Non-dog walkers must add at least one dog."]) ∧
    (isRegistered.truthy = true →
      Effect.fetch ⟨"/login", "POST", [("Content-Type", "application/json")],
          some ⟨⟨emailEl.value, passwordEl.value, false⟩, []⟩⟩ ∈ submitForm p net ∧
      Effect.alert "Non-dog walkers must add at least one dog." ∉ submitForm p net) := by
  constructor
  · intro hfalse
    unfold checkRequest at hG
    simp [submitForm, submitTry, hemail, hpassword, hat, hne, hpw, howner, hzero, hG, hB,
      hfalse, checkRequest]
  · intro htrue
    have hC : collectPetData p emailEl.value p.dogWalkerChecked = .done [] := by
      rw [howner, collectPetData_owner, hzero]; rfl
    have htrace := submitForm_of_collected p net emailEl passwordEl response isRegistered []
      hemail hpassword hat (by simp [hne, hpw]) hG hB (by simp [htrue]) hC
    rw [htrace]
    constructor
    · simp [postRequest, htrue, howner]
    · simp only [List.mem_cons, reduceCtorEq, false_or]
      unfold outcomeEffects
      split
      · simp
      · split
        · simp
        · split
          · unfold tokenChain
            split
            · simp
            · split
              · simp
              · split <;> simp
          · simp

/-- A registered owner who added no dog. -/
theorem submitForm_zero_pets_witness :
    noPetsPage.dogWalkerChecked = false ∧ noPetsPage.petCounter = 0 ∧
    Effect.fetch ⟨"/login", "POST", [("Content-Type", "application/json")],
        some ⟨⟨"a@b.com", "pw", false⟩, []⟩⟩ ∈ submitForm noPetsPage (replyNetwork true tokenReply) ∧
    Effect.alert "Non-dog walkers must add at least one dog."
      ∉ submitForm noPetsPage (replyNetwork true tokenReply) :=
  ⟨rfl, rfl,
    (submitForm_zero_pets noPetsPage (replyNetwork true tokenReply)
      ⟨"exampleInputEmail1", "email", "Enter email", "a@b.com"⟩
      ⟨"exampleInputPassword1", "password", "Password", "pw"⟩
      ⟨200, some (.bool true)⟩ (.bool true)
      (by decide) (by decide) (by decide) (by decide) (by decide) rfl rfl rfl rfl).2 rfl⟩

/-- C8 as stated fails: an owner with valid email and password and no dog submits,
and the existence check returns `true`. No pet-count alert stops the submission:
the POST to `/login` is issued with an empty `dogs` list. -/
theorem submitForm_zero_pets_registered :
    noPetsPage.dogWalkerChecked = false ∧ noPetsPage.petCounter = 0 ∧
    submitForm noPetsPage (replyNetwork true tokenReply)
      = [.fetch (checkRequest "a@b.com"),
         .fetch ⟨"/login", "POST", [("Content-Type", "application/json")],
           some ⟨⟨"a@b.com", "pw", false⟩, []⟩⟩,
         .setCookie "access_token_cookie=tok123; path=/user",
         .navigate "/user"] ∧
    (submitForm noPetsPage (replyNetwork true tokenReply)).countP Effect.isAlert = 0 := by
  refine ⟨rfl, rfl, by decide, by decide⟩
end LoginRegistration
